import Mathlib

/-!
Shallow embedding of the meeting-session orchestration core of the
JamesBusinessBot repository (src/bot/meeting_bot.py together with the
downstream parsing in src/services/openai_service.py), and proofs of the
specification claims about it.

Modelling conventions:
* Audio chunks and transcripts are opaque strings.
* A Python dict produced by the summariser is an association list of
  string key/value pairs.
* The external OpenAI capability is modelled by an environment holding a
  script of outcomes, consumed one entry per call; an exhausted script
  behaves like a failing call.  The scripts ignore their input, exactly
  as an external oracle may.
* `current_meeting` only ever holds Python None or a bool in this
  repository (both platform services return bool), so it is modelled by
  `MeetingRef`.
-/

/-- A Python dict as produced by the summariser: association list of
string keys to string values. -/
abbrev AItem := List (String × String)

/-- Python dict lookup `d[k]`, `none` standing for a raised KeyError. -/
def dictGet (k : String) : AItem → Option String
  | [] => Option.none
  | (k', v) :: rest => if k' = k then some v else dictGet k rest

/-- The value stored in `MeetingBot.current_meeting`: Python `None`, or
the bool returned by a platform service's `join_meeting`. -/
inductive MeetingRef where
  | pyNone
  | pyBool (b : Bool)
  deriving Repr, DecidableEq

/-- Python truthiness of a `current_meeting` value. -/
def MeetingRef.truthy : MeetingRef → Bool
  | .pyNone => false
  | .pyBool b => b

/-- The fields of `MeetingBot` that the orchestration state machine
reads and writes (src/bot/meeting_bot.py, `__init__`). -/
structure BotState where
  currentMeeting : MeetingRef
  transcriptionBuffer : List String
  summary : Option String
  actionItems : List AItem
  keyPoints : List String
  nextSteps : List String
  deriving Repr, DecidableEq

/-- The state built by `MeetingBot.__init__`. -/
def initState : BotState :=
  { currentMeeting := MeetingRef.pyNone
    transcriptionBuffer := []
    summary := Option.none
    actionItems := []
    keyPoints := []
    nextSteps := [] }

/-- The configuration entries the orchestrator consults:
`meetings.teams.enabled`, `meetings.google_meet.enabled` and
`transcription.buffer_size`. -/
structure Config where
  teamsEnabled : Bool
  googleMeetEnabled : Bool
  bufferSize : Nat
  deriving Repr, DecidableEq

/-- Python `str.lower()` on the ASCII platform names the orchestrator
compares against, written on the character list so it reduces
structurally. -/
def pyLower (s : String) : String :=
  String.mk (s.data.map Char.toLower)

/-- Outcome of one awaited platform-adapter `join_meeting` call: the
service returns a bool (both TeamsService and GoogleMeetService catch
their own exceptions and return False on failure), or — for a
hypothetical raising adapter — the await raises. -/
inductive AdapterOutcome where
  | returns (b : Bool)
  | raises
  deriving Repr, DecidableEq

/-- `MeetingBot.join_meeting` (src/bot/meeting_bot.py lines 38-53).
Dispatches on `platform.lower()` and on whether the corresponding
service was constructed (a service is None exactly when disabled in the
configuration); an unsupported or disabled platform hits the else
branch and returns False with no state change; otherwise the awaited
adapter result is stored into `current_meeting` and True is returned;
an exception from the adapter is caught and False returned with no
assignment having happened. -/
def join_meeting (cfg : Config) (st : BotState) (_meetingId : String)
    (platform : String) (adapter : AdapterOutcome) : BotState × Bool :=
  if pyLower platform = "teams" ∧ cfg.teamsEnabled = true then
    match adapter with
    | AdapterOutcome.raises => (st, false)
    | AdapterOutcome.returns b =>
        ({ st with currentMeeting := MeetingRef.pyBool b }, true)
  else if pyLower platform = "google" ∧ cfg.googleMeetEnabled = true then
    match adapter with
    | AdapterOutcome.raises => (st, false)
    | AdapterOutcome.returns b =>
        ({ st with currentMeeting := MeetingRef.pyBool b }, true)
  else
    (st, false)

/-- `MeetingBot.leave_meeting` (lines 55-70).  Since `current_meeting`
is only ever None or a bool, both isinstance checks fail and no adapter
is called: when `current_meeting` is truthy it is reset to None and True
is returned, otherwise False is returned with no change. -/
def leave_meeting (st : BotState) : BotState × Bool :=
  if st.currentMeeting.truthy then
    ({ st with currentMeeting := MeetingRef.pyNone }, true)
  else
    (st, false)

/-- Section marker tracked by the line parser in
`OpenAIService.generate_summary` (src/services/openai_service.py). -/
inductive NoteSection where
  | start
  | summarySec
  | actionItemsSec
  | keyPointsSec
  | nextStepsSec
  deriving Repr, DecidableEq

/-- Accumulator of the parsing loop of `generate_summary`. -/
structure ParseAcc where
  sec : NoteSection
  summaryLines : List String
  action_items : List AItem
  key_points : List String
  next_steps : List String
  deriving Repr, DecidableEq

/-- One iteration of the for-loop over lines in `generate_summary`
(lines 67-88): strip the line, skip it when empty, switch section on a
header, otherwise append to the current section, wrapping an action
item line as the dict `\x7b'description': line\x7d`. -/
def stepLine (acc : ParseAcc) (raw : String) : ParseAcc :=
  if raw.trim = "" then acc
  else if raw.trim.toLower.startsWith "summary:" then
    { acc with sec := NoteSection.summarySec }
  else if raw.trim.toLower.startsWith "action items:" then
    { acc with sec := NoteSection.actionItemsSec }
  else if raw.trim.toLower.startsWith "key points:" then
    { acc with sec := NoteSection.keyPointsSec }
  else if raw.trim.toLower.startsWith "next steps:" then
    { acc with sec := NoteSection.nextStepsSec }
  else
    match acc.sec with
    | NoteSection.start => acc
    | NoteSection.summarySec =>
        { acc with summaryLines := acc.summaryLines ++ [raw.trim] }
    | NoteSection.actionItemsSec =>
        { acc with action_items := acc.action_items ++ [[("description", raw.trim)]] }
    | NoteSection.keyPointsSec =>
        { acc with key_points := acc.key_points ++ [raw.trim] }
    | NoteSection.nextStepsSec =>
        { acc with next_steps := acc.next_steps ++ [raw.trim] }

/-- The structured fragment returned by `generate_summary`. -/
structure Fragment where
  summary : String
  action_items : List AItem
  key_points : List String
  next_steps : List String
  deriving Repr, DecidableEq

/-- The pure parsing part of `OpenAIService.generate_summary` (lines
60-95), applied to the chat completion's message content. -/
def generate_summary_parse (content : String) : Fragment :=
  let acc := (content.splitOn "\n").foldl stepLine
    { sec := NoteSection.start, summaryLines := [], action_items := []
      key_points := [], next_steps := [] }
  { summary := String.intercalate "\n" acc.summaryLines
    action_items := acc.action_items
    key_points := acc.key_points
    next_steps := acc.next_steps }

/-- Environment scripting the outcomes of the external OpenAI calls:
one queue of results for `transcribe_audio` and one of raw message
contents for the chat completion inside `generate_summary`.  `error`
stands for the vendor call raising. -/
structure Env where
  transcribeQueue : List (Except Unit String)
  summarizeQueue : List (Except Unit String)
  deriving Repr

/-- Pop the next scripted outcome; an exhausted script fails. -/
def popOutcome : List (Except Unit String) → Except Unit String × List (Except Unit String)
  | [] => (Except.error (), [])
  | r :: rest => (r, rest)

/-- One call to `OpenAIService.transcribe_audio`; the argument is the
joined buffer, which the scripted oracle ignores. -/
def transcribeCall (env : Env) (_input : String) : Except Unit String × Env :=
  let (r, q) := popOutcome env.transcribeQueue
  (r, { env with transcribeQueue := q })

/-- One call to the chat completion inside `generate_summary`; returns
the raw message content to be parsed. -/
def summarizeCall (env : Env) (_input : String) : Except Unit String × Env :=
  let (r, q) := popOutcome env.summarizeQueue
  (r, { env with summarizeQueue := q })

/-- `MeetingBot._process_transcription_buffer` (lines 84-104).  The
buffer is joined and transcribed, the transcript summarised and parsed;
on success the summary is replaced, the three lists are extended and
the buffer cleared.  Any exception from the two external calls skips
the state updates (they sit later in the same try block) and is caught
by the except branch, which only logs. -/
def processTranscriptionBuffer (env : Env) (st : BotState) : BotState × Env :=
  let (tr, env1) := transcribeCall env (String.join st.transcriptionBuffer)
  match tr with
  | Except.error _ => (st, env1)
  | Except.ok text =>
    let (sr, env2) := summarizeCall env1 text
    match sr with
    | Except.error _ => (st, env2)
    | Except.ok content =>
      let frag := generate_summary_parse content
      ({ st with
          summary := some frag.summary
          actionItems := st.actionItems ++ frag.action_items
          keyPoints := st.keyPoints ++ frag.key_points
          nextSteps := st.nextSteps ++ frag.next_steps
          transcriptionBuffer := [] }, env2)

/-- `MeetingBot.process_audio` (lines 72-82): append the chunk, then
flush when the buffer has reached `transcription.buffer_size`.  The
returned Nat counts flush attempts made during this call (0 or 1); the
Python method returns None and swallows every exception, so there is no
error channel. -/
def process_audio (cfg : Config) (env : Env) (st : BotState) (chunk : String) :
    BotState × Env × Nat :=
  let st1 := { st with transcriptionBuffer := st.transcriptionBuffer ++ [chunk] }
  if cfg.bufferSize ≤ st1.transcriptionBuffer.length then
    let r := processTranscriptionBuffer env st1
    (r.1, r.2, 1)
  else
    (st1, env, 0)

/-- Sequential composition of `process_audio` calls, accumulating the
number of flush attempts. -/
def processAudioSeq (cfg : Config) : Env → BotState → List String → BotState × Env × Nat
  | env, st, [] => (st, env, 0)
  | env, st, c :: cs =>
    let r := process_audio cfg env st c
    let rest := processAudioSeq cfg r.2.1 r.1 cs
    (rest.1, rest.2.1, r.2.2 + rest.2.2)

/-- True when the next flush attempt would fail: the next scripted
transcription outcome is an error, or it succeeds and the next scripted
summarisation outcome is an error. -/
def flushFails (env : Env) : Bool :=
  match env.transcribeQueue with
  | [] => true
  | Except.error _ :: _ => true
  | Except.ok _ :: _ =>
    match env.summarizeQueue with
    | [] => true
    | Except.error _ :: _ => true
    | Except.ok _ :: _ => false

/-- Python exceptions that `get_meeting_status` can raise. -/
inductive PyErr where
  | attributeError
  | keyError
  deriving Repr, DecidableEq

/-- The dict returned by `MeetingBot.get_meeting_status`. -/
structure StatusDict where
  meeting_id : Option String
  platform : Option String
  summary : Option String
  action_items : List String
  key_points : List String
  next_steps : List String
  deriving Repr, DecidableEq

/-- The list comprehension `[item['description'] for item in
self.action_items]`; `none` stands for a raised KeyError. -/
def projectDescriptions : List AItem → Option (List String)
  | [] => some []
  | it :: rest =>
    match dictGet "description" it with
    | Option.none => Option.none
    | some d =>
      match projectDescriptions rest with
      | Option.none => Option.none
      | some ds => some (d :: ds)

/-- `MeetingBot.get_meeting_status` (lines 160-169).  The dict values
are evaluated in order: when `current_meeting` is truthy it is a bool,
so `self.current_meeting.meeting_id` raises AttributeError; when falsy,
`meeting_id` and `platform` are None and the comprehension over
`action_items` runs, raising KeyError on an item without a
'description' key.  The method performs no writes, so the state is
returned unchanged on every path. -/
def get_meeting_status (st : BotState) : Except PyErr StatusDict × BotState :=
  if st.currentMeeting.truthy then
    (Except.error PyErr.attributeError, st)
  else
    match projectDescriptions st.actionItems with
    | Option.none => (Except.error PyErr.keyError, st)
    | some descs =>
      (Except.ok
        { meeting_id := Option.none
          platform := Option.none
          summary := st.summary
          action_items := descs
          key_points := st.keyPoints
          next_steps := st.nextSteps }, st)

/-- States reachable from the freshly constructed bot through the
state-changing operations of the orchestrator. -/
inductive Reachable (cfg : Config) : BotState → Prop
  | init : Reachable cfg initState
  | join (st : BotState) (meetingId platform : String) (a : AdapterOutcome) :
      Reachable cfg st →
      Reachable cfg (join_meeting cfg st meetingId platform a).1
  | leave (st : BotState) :
      Reachable cfg st → Reachable cfg (leave_meeting st).1
  | audio (st : BotState) (env : Env) (chunk : String) :
      Reachable cfg st →
      Reachable cfg (process_audio cfg env st chunk).1

/-- Sample configuration: both platforms enabled, buffer threshold 4. -/
def cfgBoth : Config :=
  { teamsEnabled := true, googleMeetEnabled := true, bufferSize := 4 }

/-- Sample configuration with buffer threshold 1. -/
def cfgOne : Config :=
  { teamsEnabled := true, googleMeetEnabled := true, bufferSize := 1 }

/-- Environment with no scripted outcomes (every call fails). -/
def envEmpty : Env := { transcribeQueue := [], summarizeQueue := [] }

/-- A state with an active session, as left by a successful join. -/
def activeState : BotState :=
  { initState with currentMeeting := MeetingRef.pyBool true }

theorem ptb_fail_frame (env : Env) (st : BotState) (h : flushFails env = true) :
    (processTranscriptionBuffer env st).1 = st := by
  unfold flushFails at h
  unfold processTranscriptionBuffer transcribeCall summarizeCall popOutcome
  rcases henv : env.transcribeQueue with _ | ⟨tr, tq⟩
  · simp
  · cases tr with
    | error e => simp
    | ok t =>
      rw [henv] at h
      rcases hs : env.summarizeQueue with _ | ⟨sr, sq⟩
      · simp
      · cases sr with
        | error e => simp
        | ok c => rw [hs] at h; simp at h

theorem ptb_ok_eq (st : BotState) (t content : String)
    (tq sq : List (Except Unit String)) :
    processTranscriptionBuffer
        { transcribeQueue := Except.ok t :: tq, summarizeQueue := Except.ok content :: sq } st =
      ({ st with
          summary := some (generate_summary_parse content).summary
          actionItems := st.actionItems ++ (generate_summary_parse content).action_items
          keyPoints := st.keyPoints ++ (generate_summary_parse content).key_points
          nextSteps := st.nextSteps ++ (generate_summary_parse content).next_steps
          transcriptionBuffer := [] },
       { transcribeQueue := tq, summarizeQueue := sq }) := by
  rfl

theorem paSeq_below (cfg : Config) (env : Env) (st : BotState) (cs : List String)
    (h : st.transcriptionBuffer.length + cs.length < cfg.bufferSize) :
    processAudioSeq cfg env st cs =
      ({ st with transcriptionBuffer := st.transcriptionBuffer ++ cs }, env, 0) := by
  induction cs generalizing st with
  | nil => simp [processAudioSeq]
  | cons c cs ih =>
    have hlt : ¬ cfg.bufferSize ≤ (st.transcriptionBuffer ++ [c]).length := by
      simp only [List.length_append, List.length_cons, List.length_nil] at h ⊢
      omega
    have ih' := ih { st with transcriptionBuffer := st.transcriptionBuffer ++ [c] }
      (by simp only [List.length_append, List.length_cons, List.length_nil] at h ⊢; omega)
    simp only [processAudioSeq, process_audio, if_neg hlt, ih']
    simp

theorem paSeq_threshold (cfg : Config) (env : Env) (st : BotState) (cs : List String)
    (c : String) (h : st.transcriptionBuffer.length + cs.length + 1 = cfg.bufferSize) :
    processAudioSeq cfg env st (cs ++ [c]) =
      ((processTranscriptionBuffer env
          { st with transcriptionBuffer := st.transcriptionBuffer ++ cs ++ [c] }).1,
       (processTranscriptionBuffer env
          { st with transcriptionBuffer := st.transcriptionBuffer ++ cs ++ [c] }).2,
       1) := by
  induction cs generalizing st with
  | nil =>
    have hge : cfg.bufferSize ≤ (st.transcriptionBuffer ++ [c]).length := by
      simp only [List.length_append, List.length_cons, List.length_nil] at h ⊢
      omega
    simp only [List.nil_append, processAudioSeq, process_audio, if_pos hge]
    simp
  | cons d ds ih =>
    have hlt : ¬ cfg.bufferSize ≤ (st.transcriptionBuffer ++ [d]).length := by
      simp only [List.length_append, List.length_cons, List.length_nil] at h ⊢
      omega
    have ih' := ih { st with transcriptionBuffer := st.transcriptionBuffer ++ [d] }
      (by simp only [List.length_append, List.length_cons, List.length_nil] at h ⊢; omega)
    simp only [List.cons_append, processAudioSeq, process_audio, if_neg hlt, List.append_eq]
    rw [ih']
    simp [List.append_assoc]

theorem stepLine_shape (acc : ParseAcc) (raw : String)
    (h : ∀ it ∈ acc.action_items, ∃ l, it = [("description", l)]) :
    ∀ it ∈ (stepLine acc raw).action_items, ∃ l, it = [("description", l)] := by
  unfold stepLine
  split_ifs with h1 h2 h3 h4 h5
  · exact h
  · exact h
  · exact h
  · exact h
  · exact h
  · cases hsec : acc.sec with
    | start => simpa [hsec] using h
    | summarySec => simpa [hsec] using h
    | actionItemsSec =>
      intro it hit
      simp only [hsec, List.mem_append, List.mem_singleton] at hit
      rcases hit with hit | hit
      · exact h it hit
      · exact ⟨raw.trim, hit⟩
    | keyPointsSec => simpa [hsec] using h
    | nextStepsSec => simpa [hsec] using h

theorem foldl_shape (lines : List String) :
    ∀ acc : ParseAcc, (∀ it ∈ acc.action_items, ∃ l, it = [("description", l)]) →
    ∀ it ∈ (lines.foldl stepLine acc).action_items, ∃ l, it = [("description", l)] := by
  induction lines with
  | nil => intro acc h; simpa using h
  | cons x xs ih =>
    intro acc h
    exact ih (stepLine acc x) (stepLine_shape acc x h)

theorem parse_shape (content : String) :
    ∀ it ∈ (generate_summary_parse content).action_items, ∃ l, it = [("description", l)] := by
  unfold generate_summary_parse
  exact foldl_shape (content.splitOn "\n") _ (by simp)

theorem ptb_shape (env : Env) (st : BotState)
    (h : ∀ it ∈ st.actionItems, ∃ l, it = [("description", l)]) :
    ∀ it ∈ (processTranscriptionBuffer env st).1.actionItems, ∃ l, it = [("description", l)] := by
  unfold processTranscriptionBuffer transcribeCall summarizeCall popOutcome
  rcases env.transcribeQueue with _ | ⟨tr, tq⟩
  · simpa using h
  · cases tr with
    | error e => simpa using h
    | ok t =>
      rcases env.summarizeQueue with _ | ⟨sr, sq⟩
      · simpa using h
      · cases sr with
        | error e => simpa using h
        | ok content =>
          intro it hit
          simp only [List.mem_append] at hit
          rcases hit with hit | hit
          · exact h it hit
          · exact parse_shape content it hit

theorem join_meeting_actionItems (cfg : Config) (st : BotState)
    (meetingId platform : String) (a : AdapterOutcome) :
    (join_meeting cfg st meetingId platform a).1.actionItems = st.actionItems := by
  unfold join_meeting
  split_ifs <;> cases a <;> rfl

theorem leave_meeting_actionItems (st : BotState) :
    (leave_meeting st).1.actionItems = st.actionItems := by
  unfold leave_meeting
  split_ifs <;> rfl

theorem process_audio_shape (cfg : Config) (env : Env) (st : BotState) (chunk : String)
    (h : ∀ it ∈ st.actionItems, ∃ l, it = [("description", l)]) :
    ∀ it ∈ (process_audio cfg env st chunk).1.actionItems, ∃ l, it = [("description", l)] := by
  unfold process_audio
  dsimp only
  split_ifs with hc
  · exact ptb_shape env { st with transcriptionBuffer := st.transcriptionBuffer ++ [chunk] }
      (by simpa using h)
  · simpa using h

theorem reachable_shape (cfg : Config) (st : BotState) (h : Reachable cfg st) :
    ∀ it ∈ st.actionItems, ∃ l, it = [("description", l)] := by
  induction h with
  | init => simp [initState]
  | join st meetingId platform a _ ih =>
    rw [join_meeting_actionItems]; exact ih
  | leave st _ ih =>
    rw [leave_meeting_actionItems]; exact ih
  | audio st env chunk _ ih =>
    exact process_audio_shape cfg env st chunk ih

theorem projectDescriptions_some (l : List AItem)
    (h : ∀ it ∈ l, ∃ v, it = [("description", v)]) :
    ∃ ds, projectDescriptions l = some ds := by
  induction l with
  | nil => exact ⟨[], rfl⟩
  | cons it rest ih =>
    obtain ⟨v, hv⟩ := h it (by simp)
    obtain ⟨ds, hds⟩ := ih (fun x hx => h x (by simp [hx]))
    refine ⟨v :: ds, ?_⟩
    simp [projectDescriptions, hv, hds, dictGet]

/-- Claim C1: when the flush triggered inside process_audio fails
downstream (the transcription or the summarisation call raises), the
transcription buffer retains its pre-flush contents — the freshly
appended chunk included, so no audio is lost — and current_meeting is
untouched, so the session remains Active.  The buffer clear sits after
both external calls inside the try block, hence is skipped on
exception. -/
theorem c1_flush_failure_preserves_buffer (cfg : Config) (env : Env)
    (st : BotState) (chunk : String)
    (hthr : cfg.bufferSize ≤ st.transcriptionBuffer.length + 1)
    (hfail : flushFails env = true) :
    (process_audio cfg env st chunk).1.transcriptionBuffer
        = st.transcriptionBuffer ++ [chunk]
    ∧ (process_audio cfg env st chunk).1.currentMeeting = st.currentMeeting := by
  have hge : cfg.bufferSize ≤ (st.transcriptionBuffer ++ [chunk]).length := by
    simpa using hthr
  have hfr := ptb_fail_frame env
    { st with transcriptionBuffer := st.transcriptionBuffer ++ [chunk] } hfail
  unfold process_audio
  dsimp only
  rw [if_pos hge]
  dsimp only
  rw [hfr]
  exact ⟨rfl, rfl⟩

/-- Witness for C1: threshold 1, active session, failing transcription. -/
theorem c1_witness :
    cfgOne.bufferSize ≤ activeState.transcriptionBuffer.length + 1
    ∧ flushFails { transcribeQueue := [Except.error ()], summarizeQueue := [] } = true
    ∧ (process_audio cfgOne
        { transcribeQueue := [Except.error ()], summarizeQueue := [] }
        activeState "a").1.transcriptionBuffer
          = activeState.transcriptionBuffer ++ ["a"]
    ∧ (process_audio cfgOne
        { transcribeQueue := [Except.error ()], summarizeQueue := [] }
        activeState "a").1.currentMeeting = activeState.currentMeeting :=
  ⟨by decide, by rfl,
    c1_flush_failure_preserves_buffer cfgOne
      { transcribeQueue := [Except.error ()], summarizeQueue := [] }
      activeState "a" (by decide) (by rfl)⟩

/-- Claim C2 counterexample: with a session already active, a second
join for an enabled supported platform reports success (True) instead
of failing with SessionConflict — join_meeting performs no conflict
check. -/
theorem c2_counterexample :
    (join_meeting cfgBoth activeState "m2" "teams"
        (AdapterOutcome.returns true)).2 = true := by
  decide

/-- Claim C2 (amended): join_meeting performs no session-conflict
check: in every state — an active session included — a join for the
enabled Teams platform succeeds and overwrites current_meeting with
the adapter's result; at most one session exists per orchestrator only
because the instance holds a single current_meeting slot. -/
theorem c2_join_overwrites (cfg : Config) (st : BotState) (meetingId : String)
    (b : Bool) (hen : cfg.teamsEnabled = true) :
    join_meeting cfg st meetingId "teams" (AdapterOutcome.returns b)
      = ({ st with currentMeeting := MeetingRef.pyBool b }, true) := by
  unfold join_meeting
  rw [if_pos ⟨by decide, hen⟩]

/-- Witness for C2 (amended) at a concrete active state. -/
theorem c2_witness :
    cfgBoth.teamsEnabled = true
    ∧ join_meeting cfgBoth activeState "m2" "teams" (AdapterOutcome.returns false)
        = ({ activeState with currentMeeting := MeetingRef.pyBool false }, true) :=
  ⟨by decide, c2_join_overwrites cfgBoth activeState "m2" false (by decide)⟩

/-- Claim C3: when the Teams adapter reports failure — its join_meeting
catches the underlying exception and returns False — the orchestrator
stores that False into current_meeting and returns True: the join is
reported as a success, contradicting the intended failure propagation
visible in the orchestrator's own except branch and in its later reads
of current_meeting as a session object. -/
theorem c3_adapter_failure_reported_as_success :
    join_meeting cfgBoth initState "m1" "teams" (AdapterOutcome.returns false)
      = ({ initState with currentMeeting := MeetingRef.pyBool false }, true) := by
  decide

/-- Claim C4 counterexample: process_audio called with no current
session (phase Idle) raises no NoActiveSession error — it has no error
channel at all — and it does alter the buffer: the chunk is appended. -/
theorem c4_counterexample :
    (process_audio cfgBoth envEmpty initState "a").1
        = { initState with transcriptionBuffer := ["a"] }
    ∧ ({ initState with transcriptionBuffer := ["a"] } : BotState) ≠ initState := by
  exact ⟨by decide, by decide⟩

/-- Claim C4 (amended): process_audio performs no session check: called
while current_meeting is None it appends the chunk to the transcription
buffer (triggering the usual flush logic at threshold; below threshold
the append is the only effect) and reports no error. -/
theorem c4_idle_appends (cfg : Config) (env : Env) (st : BotState) (chunk : String)
    (_hidle : st.currentMeeting = MeetingRef.pyNone)
    (hlt : st.transcriptionBuffer.length + 1 < cfg.bufferSize) :
    process_audio cfg env st chunk
      = ({ st with transcriptionBuffer := st.transcriptionBuffer ++ [chunk] }, env, 0) := by
  have hn : ¬ cfg.bufferSize ≤ (st.transcriptionBuffer ++ [chunk]).length := by
    simp only [List.length_append, List.length_cons, List.length_nil]
    omega
  unfold process_audio
  dsimp only
  rw [if_neg hn]

/-- Witness for C4 (amended) on the freshly constructed bot. -/
theorem c4_witness :
    initState.currentMeeting = MeetingRef.pyNone
    ∧ initState.transcriptionBuffer.length + 1 < cfgBoth.bufferSize
    ∧ process_audio cfgBoth envEmpty initState "a"
        = ({ initState with transcriptionBuffer := initState.transcriptionBuffer ++ ["a"] },
           envEmpty, 0) :=
  ⟨by decide, by decide, c4_idle_appends cfgBoth envEmpty initState "a" (by decide) (by decide)⟩

/-- Claim C5 counterexample: a failing flush is not retried.  With two
failing transcription outcomes scripted, one process_audio call at
threshold consumes exactly one of them (one transcription attempt, not
two), and no warning is recorded anywhere in the state — the except
branch only logs. -/
theorem c5_counterexample :
    (process_audio cfgOne
        { transcribeQueue := [Except.error (), Except.error ()], summarizeQueue := [] }
        activeState "a").2.1.transcribeQueue.length = 1
    ∧ (process_audio cfgOne
        { transcribeQueue := [Except.error (), Except.error ()], summarizeQueue := [] }
        activeState "a").1.transcriptionBuffer = ["a"] := by
  exact ⟨rfl, rfl⟩

/-- Claim C5 (amended): a failure of either downstream call during an
automatic flush — the transcription raising, or the transcription
succeeding and the summarisation raising — is not retried: exactly one
transcription outcome is consumed, a summarisation outcome is consumed
only when the transcription succeeded (and then exactly one), the
exception is caught and merely logged, the buffer keeps its pre-flush
contents and the whole remaining state — the Active session included —
is unchanged apart from the appended chunk. -/
theorem c5_no_retry (cfg : Config) (env : Env) (st : BotState) (chunk : String)
    (hthr : cfg.bufferSize ≤ st.transcriptionBuffer.length + 1)
    (hfail : flushFails env = true) :
    (process_audio cfg env st chunk).1
        = { st with transcriptionBuffer := st.transcriptionBuffer ++ [chunk] }
    ∧ (process_audio cfg env st chunk).2.2 = 1
    ∧ (process_audio cfg env st chunk).2.1.transcribeQueue = env.transcribeQueue.tail
    ∧ ((∃ e tq, env.transcribeQueue = Except.error e :: tq) →
        (process_audio cfg env st chunk).2.1.summarizeQueue = env.summarizeQueue)
    ∧ ((∃ t tq, env.transcribeQueue = Except.ok t :: tq) →
        (process_audio cfg env st chunk).2.1.summarizeQueue = env.summarizeQueue.tail) := by
  have hge : cfg.bufferSize ≤ (st.transcriptionBuffer ++ [chunk]).length := by
    simpa using hthr
  obtain ⟨tq0, sq0⟩ := env
  unfold flushFails at hfail
  unfold process_audio processTranscriptionBuffer transcribeCall summarizeCall popOutcome
  dsimp only
  rw [if_pos hge]
  rcases tq0 with _ | ⟨tr, tq⟩
  · refine ⟨rfl, rfl, rfl, fun _ => rfl, ?_⟩
    rintro ⟨t, tq2, h⟩
    cases h
  · cases tr with
    | error e =>
      refine ⟨rfl, rfl, rfl, fun _ => rfl, ?_⟩
      rintro ⟨t, tq2, h⟩
      cases h
    | ok t =>
      dsimp only at hfail ⊢
      rcases sq0 with _ | ⟨sr, sq⟩
      · refine ⟨rfl, rfl, rfl, ?_, fun _ => rfl⟩
        rintro ⟨e, tq2, h⟩
        cases h
      · cases sr with
        | error e =>
          refine ⟨rfl, rfl, rfl, ?_, fun _ => rfl⟩
          rintro ⟨e2, tq2, h⟩
          cases h
        | ok c => exact absurd hfail (by simp)

/-- Witness for C5 (amended): threshold 1, the transcription succeeds
and the summarisation fails; exactly one outcome of each script is
consumed and the state change is the plain append. -/
theorem c5_witness :
    cfgOne.bufferSize ≤ activeState.transcriptionBuffer.length + 1
    ∧ flushFails { transcribeQueue := [Except.ok "text", Except.ok "more"],
                   summarizeQueue := [Except.error (), Except.error ()] } = true
    ∧ ((process_audio cfgOne
          { transcribeQueue := [Except.ok "text", Except.ok "more"],
            summarizeQueue := [Except.error (), Except.error ()] }
          activeState "a").1
            = { activeState with transcriptionBuffer := activeState.transcriptionBuffer ++ ["a"] }
       ∧ (process_audio cfgOne
          { transcribeQueue := [Except.ok "text", Except.ok "more"],
            summarizeQueue := [Except.error (), Except.error ()] }
          activeState "a").2.2 = 1
       ∧ (process_audio cfgOne
          { transcribeQueue := [Except.ok "text", Except.ok "more"],
            summarizeQueue := [Except.error (), Except.error ()] }
          activeState "a").2.1.transcribeQueue
            = ([Except.ok "text", Except.ok "more"] : List (Except Unit String)).tail
       ∧ ((∃ e tq, ([Except.ok "text", Except.ok "more"] : List (Except Unit String))
              = Except.error e :: tq) →
          (process_audio cfgOne
            { transcribeQueue := [Except.ok "text", Except.ok "more"],
              summarizeQueue := [Except.error (), Except.error ()] }
            activeState "a").2.1.summarizeQueue = [Except.error (), Except.error ()])
       ∧ ((∃ t tq, ([Except.ok "text", Except.ok "more"] : List (Except Unit String))
              = Except.ok t :: tq) →
          (process_audio cfgOne
            { transcribeQueue := [Except.ok "text", Except.ok "more"],
              summarizeQueue := [Except.error (), Except.error ()] }
            activeState "a").2.1.summarizeQueue
              = ([Except.error (), Except.error ()] : List (Except Unit String)).tail)) :=
  ⟨by decide, rfl,
    c5_no_retry cfgOne
      { transcribeQueue := [Except.ok "text", Except.ok "more"],
        summarizeQueue := [Except.error (), Except.error ()] }
      activeState "a" (by decide) rfl⟩

/-- Claim C6: with buffer threshold N, starting from an empty buffer, a
run of N process_audio calls performs exactly one flush (the flush
predicate is buffer length at least N, checked after each append); when
the flush's transcription and summarisation succeed, the buffer ends
empty and action_items has grown by exactly the item count of the
parsed fragment. -/
theorem c6_threshold_single_flush (cfg : Config) (st : BotState)
    (cs : List String) (c t content : String)
    (tq sq : List (Except Unit String))
    (hbuf : st.transcriptionBuffer = [])
    (hlen : cs.length + 1 = cfg.bufferSize) :
    (processAudioSeq cfg
        { transcribeQueue := Except.ok t :: tq, summarizeQueue := Except.ok content :: sq }
        st (cs ++ [c])).2.2 = 1
    ∧ (processAudioSeq cfg
        { transcribeQueue := Except.ok t :: tq, summarizeQueue := Except.ok content :: sq }
        st (cs ++ [c])).1.transcriptionBuffer = []
    ∧ (processAudioSeq cfg
        { transcribeQueue := Except.ok t :: tq, summarizeQueue := Except.ok content :: sq }
        st (cs ++ [c])).1.actionItems.length
          = st.actionItems.length + (generate_summary_parse content).action_items.length := by
  have h := paSeq_threshold cfg
    { transcribeQueue := Except.ok t :: tq, summarizeQueue := Except.ok content :: sq }
    st cs c (by rw [hbuf]; simpa using hlen)
  rw [h, ptb_ok_eq]
  refine ⟨rfl, rfl, ?_⟩
  simp

/-- Witness for C6: threshold 4, four chunks, one successful flush. -/
theorem c6_witness :
    activeState.transcriptionBuffer = []
    ∧ ([("1" : String), "2", "3"]).length + 1 = cfgBoth.bufferSize
    ∧ (processAudioSeq cfgBoth
        { transcribeQueue := [Except.ok "text"], summarizeQueue := [Except.ok "Action Items:\nfollow up"] }
        activeState (["1", "2", "3"] ++ ["4"])).2.2 = 1
    ∧ (processAudioSeq cfgBoth
        { transcribeQueue := [Except.ok "text"], summarizeQueue := [Except.ok "Action Items:\nfollow up"] }
        activeState (["1", "2", "3"] ++ ["4"])).1.transcriptionBuffer = []
    ∧ (processAudioSeq cfgBoth
        { transcribeQueue := [Except.ok "text"], summarizeQueue := [Except.ok "Action Items:\nfollow up"] }
        activeState (["1", "2", "3"] ++ ["4"])).1.actionItems.length
          = activeState.actionItems.length
            + (generate_summary_parse "Action Items:\nfollow up").action_items.length :=
  ⟨rfl, by decide,
    c6_threshold_single_flush cfgBoth activeState ["1", "2", "3"] "4" "text"
      "Action Items:\nfollow up" [] [] rfl (by decide)⟩

/-- Claim C7: a successful flush merges the parsed fragment into the
aggregated notes by replacing the summary with the fragment's summary
(last-write-wins) and appending the fragment's action_items, key_points
and next_steps behind the existing sequences in order — plain list
append, so exact duplicates are preserved and no set union or
deduplication happens — while the buffer is cleared. -/
theorem c7_merge_semantics (st : BotState) (t content : String)
    (tq sq : List (Except Unit String)) :
    processTranscriptionBuffer
        { transcribeQueue := Except.ok t :: tq, summarizeQueue := Except.ok content :: sq } st
      = ({ st with
            summary := some (generate_summary_parse content).summary
            actionItems := st.actionItems ++ (generate_summary_parse content).action_items
            keyPoints := st.keyPoints ++ (generate_summary_parse content).key_points
            nextSteps := st.nextSteps ++ (generate_summary_parse content).next_steps
            transcriptionBuffer := [] },
         { transcribeQueue := tq, summarizeQueue := sq }) :=
  ptb_ok_eq st t content tq sq

/-- Claim C8: get_meeting_status is a pure read: it hands the state
back unchanged on every path, and an immediately repeated call with no
intervening activity returns the identical result. -/
theorem c8_status_idempotent (st : BotState) :
    (get_meeting_status st).2 = st
    ∧ (get_meeting_status (get_meeting_status st).2).1 = (get_meeting_status st).1 := by
  have h2 : (get_meeting_status st).2 = st := by
    unfold get_meeting_status
    split_ifs
    · rfl
    · cases hp : projectDescriptions st.actionItems <;> simp [hp]
  exact ⟨h2, by rw [h2]⟩

/-- Claim C9: for a platform argument other than "teams" or "google"
after lowercasing, and likewise for a recognised platform whose service
is disabled (its service attribute is None), join_meeting returns False
and the whole orchestrator state — current_meeting, buffer, summary and
the three lists — is exactly as before the call. -/
theorem c9_unsupported_platform_noop (cfg : Config) (st : BotState)
    (meetingId platform : String) (adapter : AdapterOutcome)
    (h : (pyLower platform ≠ "teams" ∧ pyLower platform ≠ "google")
       ∨ (pyLower platform = "teams" ∧ cfg.teamsEnabled = false)
       ∨ (pyLower platform = "google" ∧ cfg.googleMeetEnabled = false)) :
    join_meeting cfg st meetingId platform adapter = (st, false) := by
  unfold join_meeting
  rcases h with ⟨h1, h2⟩ | ⟨h1, h2⟩ | ⟨h1, h2⟩
  · rw [if_neg (fun hc => h1 hc.1), if_neg (fun hc => h2 hc.1)]
  · rw [if_neg (fun hc => by rw [h2] at hc; exact absurd hc.2 (by decide)),
        if_neg (fun hc => by rw [h1] at hc; exact absurd hc.1 (by decide))]
  · rw [if_neg (fun hc => by rw [h1] at hc; exact absurd hc.1 (by decide)),
        if_neg (fun hc => by rw [h2] at hc; exact absurd hc.2 (by decide))]

/-- Witness for C9 with the unrecognised platform "zoom". -/
theorem c9_witness :
    ((pyLower "zoom" ≠ "teams" ∧ pyLower "zoom" ≠ "google")
       ∨ (pyLower "zoom" = "teams" ∧ cfgBoth.teamsEnabled = false)
       ∨ (pyLower "zoom" = "google" ∧ cfgBoth.googleMeetEnabled = false))
    ∧ join_meeting cfgBoth activeState "m1" "zoom" (AdapterOutcome.returns true)
        = (activeState, false) :=
  ⟨Or.inl ⟨by decide, by decide⟩,
    c9_unsupported_platform_noop cfgBoth activeState "m1" "zoom"
      (AdapterOutcome.returns true) (Or.inl ⟨by decide, by decide⟩)⟩

/-- Claim C10: in every state reachable through the orchestrator's
operations, each element of action_items is a dict carrying a
'description' key (the flush pipeline only appends items the parser
built as \x7b'description': line\x7d), so the projection in
get_meeting_status never raises KeyError. -/
theorem c10_descriptions_total (cfg : Config) (st : BotState)
    (h : Reachable cfg st) :
    (get_meeting_status st).1 ≠ Except.error PyErr.keyError := by
  have hsh := reachable_shape cfg st h
  unfold get_meeting_status
  split_ifs
  · simp
  · obtain ⟨ds, hds⟩ := projectDescriptions_some st.actionItems hsh
    rw [hds]
    simp

/-- Witness for C10 at a state reached by a join followed by a flushing
process_audio call that stored one parsed action item. -/
theorem c10_witness :
    Reachable cfgOne
      (process_audio cfgOne
        { transcribeQueue := [Except.ok "text"], summarizeQueue := [Except.ok "Action Items:\nfollow up"] }
        (join_meeting cfgOne initState "m1" "teams" (AdapterOutcome.returns true)).1 "a").1
    ∧ (get_meeting_status
        (process_audio cfgOne
          { transcribeQueue := [Except.ok "text"], summarizeQueue := [Except.ok "Action Items:\nfollow up"] }
          (join_meeting cfgOne initState "m1" "teams" (AdapterOutcome.returns true)).1 "a").1).1
        ≠ Except.error PyErr.keyError :=
  ⟨Reachable.audio _ _ _ (Reachable.join _ _ _ _ Reachable.init),
    c10_descriptions_total cfgOne _
      (Reachable.audio _ _ _ (Reachable.join _ _ _ _ Reachable.init))⟩
